import Mathlib

/-!
Verification of the process-supervisor engine in `src/main.py`
(CangioUni/python-executor).

The Python module keeps one mutable dict per supervised name in the global
`processes` map, guarded by a single coarse lock.  Every lock region of the
source is embedded below as a pure function on an explicit record type
`ProcRec` (dict keys that may be absent are `Option` fields); the supervisor
loop `monitor_script` is embedded as a per-cycle step function `monitorIter`
plus the driver `monitorLoop`, where the nondeterministic environment of one
cycle (launch outcome, produced lines, exit code, concurrent stop requests)
is an explicit `CycleEnv` value.  Python strings are modelled as `List Char`
so that the character-level slice `s[-n:]` becomes the function `takeLast`.
The timing of the output fan-out relative to subscription is modelled
separately and more finely by `fanStep`, a small-step semantics whose events
are exactly the relevant lock regions of the source.
-/

/-- One line of child output (Python `str`), as a list of characters. -/
abbrev Line := List Char

/-- Python slice `l[-k:]`: the last `k` elements of `l` (all of `l` when it is
shorter than `k`). -/
def takeLast (k : Nat) (l : List α) : List α :=
  (l.reverse.take k).reverse

/-- One output append of the monitor loop, `main.py` line 83:
`processes[name]["output"] = (processes[name]["output"] + line)[-20000:]`
with the cap abstracted as a parameter. -/
def appendOutput (cap : Nat) (out line : List Char) : List Char :=
  takeLast cap (out ++ line)

/-- A bounded subscriber queue: Python `queue.Queue[str]` holding whole
output lines (`main.py` line 214 creates them with `maxsize=1000`).  A
`maxsize` of 0 means unbounded, as in Python. -/
structure SubQueue where
  maxsize : Nat := 0
  items : List Line := []
deriving DecidableEq, Repr

/-- Python `Queue.full()`: true when the queue has a positive bound and at
least that many items. -/
def qFull (q : SubQueue) : Bool :=
  0 < q.maxsize && q.maxsize ≤ q.items.length

/-- Python `q.put_nowait(line)` with the surrounding `except queue.Full: pass` of
`_broadcast_line`: append unless full, drop when full. -/
def qput_nowait (q : SubQueue) (line : Line) : SubQueue :=
  if qFull q then q else { q with items := q.items ++ [line] }

/-- The function `_broadcast_line` (`main.py` lines 47-55) applied to the snapshot of the
subscriber set taken under the lock: each sink gets an independent
non-blocking enqueue attempt. -/
def broadcast_line (subs : List SubQueue) (line : Line) : List SubQueue :=
  subs.map (fun q => qput_nowait q line)

/-- The runtime record `processes[name]` of `main.py` (comment at lines
39-42): process handle (pid), thread handle, status string, start time,
bounded output buffer, last return code, policy string, sticky stop flag and
the subscriber set.  `processes[name]` is a Python dict whose keys may be
absent, so every field is an `Option` and reads go through the same defaults
the source uses (`dict.get(key, default)` / `dict.setdefault`). -/
structure ProcRec where
  process : Option Nat := none
  thread : Option Nat := none
  status : Option String := none
  start_time : Option Nat := none
  output : Option (List Char) := none
  returncode : Option Int := none
  policy : Option String := none
  should_stop : Option Bool := none
  subscribers : Option (List SubQueue) := none
deriving DecidableEq, Repr

/-- The launch lock region of `monitor_script`, `main.py` lines 73-77: store
the process handle, set status `"running"`, record the start time taken just
before `Popen`, and `setdefault("output", "")`.  Note: the stored
`returncode` is NOT touched here. -/
def launchUpdate (pid now : Nat) (r : ProcRec) : ProcRec :=
  { r with
    process := some pid
    status := some "running"
    start_time := some now
    output := some (r.output.getD []) }

/-- One iteration of the streaming loop body, `main.py` lines 81-84: append
the line to the bounded output buffer (cap 20000 characters) and broadcast
it to the subscriber snapshot. -/
def streamLine (r : ProcRec) (line : Line) : ProcRec :=
  { r with
    output := some (appendOutput 20000 (r.output.getD []) line)
    subscribers := some (broadcast_line (r.subscribers.getD []) line) }

/-- The whole streaming phase: fold `streamLine` over the lines the child
produces before closing its stream. -/
def streamFold (r : ProcRec) (lines : List Line) : ProcRec :=
  lines.foldl streamLine r

/-- The post-wait lock region of `monitor_script`, `main.py` lines 88-89:
store the child's exit code. -/
def setRetcode (code : Int) (r : ProcRec) : ProcRec :=
  { r with returncode := some code }

/-- The stop request's flag write, `main.py` line 182:
`processes[name]["should_stop"] = True`. -/
def stopFlagUpdate (r : ProcRec) : ProcRec :=
  { r with should_stop := some true }

/-- The stop request's final status write, `main.py` line 191:
`processes[name]["status"] = "stopped"`. -/
def stopStatusUpdate (r : ProcRec) : ProcRec :=
  { r with status := some "stopped" }

/-- Outcome of `subprocess.Popen` for one launch attempt: either a child
process that produces `lines` and exits with `code`, or a launch failure
(`FileNotFoundError`, `PermissionError`, ...) raised by `Popen` itself. -/
inductive LaunchResult where
  | ok (lines : List Line) (code : Int)
  | fail
deriving DecidableEq, Repr

/-- Environment of one loop iteration: whether a concurrent stop request
lands before the first checkpoint, the pid and start timestamp a successful
launch would get, the launch outcome, and whether a concurrent stop request
lands while the child runs (observed at the second checkpoint). -/
structure CycleEnv where
  stopBefore : Bool := false
  pid : Nat := 0
  now : Nat := 0
  launch : LaunchResult := .ok [] 0
  stopDuring : Bool := false
deriving DecidableEq, Repr

/-- How one iteration of the `while True:` loop ends: `Break` leaves the
loop, `Continue backoff` relaunches after sleeping `backoff` time units
(`time.sleep(2)`), and `Crash` means an exception escaped the loop body —
`monitor_script` has no handler, so the thread dies. -/
inductive CycleOutcome where
  | Break
  | Continue (backoff : Nat)
  | Crash
deriving DecidableEq, Repr

/-- One iteration of `monitor_script`'s `while True:` body (`main.py` lines
60-111), returning the record after the iteration, how the iteration ended,
and how many child processes were created in it.  The `policy` argument is
the thread-local parameter of `monitor_script`, not a field read from the
record.  The dead second test against `"always"` mirrors the fall-through
from the nonzero-exit branch to `if policy == "always"` at line 108. -/
def monitorIter (policy : String) (r : ProcRec) (e : CycleEnv) :
    ProcRec × CycleOutcome × Nat :=
  let r := if e.stopBefore then stopFlagUpdate r else r
  if r.should_stop.getD false then
    ({ r with status := some "stopped" }, .Break, 0)
  else
    match e.launch with
    | .fail => (r, .Crash, 0)
    | .ok lines code =>
      let r := launchUpdate e.pid e.now r
      let r := streamFold r lines
      let r := setRetcode code r
      let r := if e.stopDuring then stopFlagUpdate r else r
      if r.should_stop.getD false then
        ({ r with status := some "stopped" }, .Break, 1)
      else if code ≠ 0 then
        let r := { r with status := some "error" }
        if policy = "on-failure" ∨ policy = "always" then (r, .Continue 2, 1)
        else if policy = "always" then (r, .Continue 2, 1)
        else (r, .Break, 1)
      else
        let r := { r with status := some "stopped" }
        if policy = "always" then (r, .Continue 2, 1)
        else (r, .Break, 1)

/-- How a finite run of the supervisor loop ended: `normal` through a
`break`, `crashed` through an uncaught exception. -/
inductive LoopExit where
  | normal
  | crashed
deriving DecidableEq, Repr

/-- The `while True:` driver of `monitor_script`: run one iteration per
scheduled environment until the iteration breaks or crashes.  Returns the
final record, the total number of child processes created, and how the loop
ended (`none` when the scheduled environments ran out with the loop still
live). -/
def monitorLoop (policy : String) (r : ProcRec) :
    List CycleEnv → ProcRec × Nat × Option LoopExit
  | [] => (r, 0, none)
  | e :: rest =>
    match monitorIter policy r e with
    | (r2, .Break, n) => (r2, n, some .normal)
    | (r2, .Crash, n) => (r2, n, some .crashed)
    | (r2, .Continue _, n) =>
      let res := monitorLoop policy r2 rest
      (res.1, n + res.2.1, res.2.2)

/-- One entry of the on-disk script registry `scripts.json`: path, argument
list, and optional restart policy (read with default `"on-failure"`). -/
structure Script where
  path : String := ""
  args : List String := []
  policy : Option String := none
deriving DecidableEq, Repr

/-- Dict lookup on an association list. -/
def alistLookup : List (String × α) → String → Option α
  | [], _ => none
  | (k2, v) :: rest, k => if k2 = k then some v else alistLookup rest k

/-- Dict store on an association list: replace the entry for the key or
append a fresh one. -/
def alistInsert : List (String × α) → String → α → List (String × α)
  | [], k, v => [(k, v)]
  | (k2, v2) :: rest, k, v =>
    if k2 = k then (k, v) :: rest else (k2, v2) :: alistInsert rest k v

/-- The global `processes` map. -/
abbrev ProcMap := List (String × ProcRec)

/-- The HTTP responses the Control API produces: an HTML body with a status
code, or a redirect with a status code. -/
inductive Response where
  | html (body : String) (code : Nat)
  | redirect (loc : String) (code : Nat)
deriving DecidableEq, Repr

/-- The HTTP status code of a response. -/
def Response.statusOf : Response → Nat
  | .html _ c => c
  | .redirect _ c => c

/-- The record mutation of `start_script`, `main.py` lines 161-166:
`processes.setdefault(name, {}).update({"should_stop": False, "output": "",
"policy": ..., "subscribers": existing-or-new-set})`. -/
def startUpdate (pol : String) (r : ProcRec) : ProcRec :=
  { r with
    should_stop := some false
    output := some []
    policy := some pol
    subscribers := some (r.subscribers.getD []) }

/-- The thread-handle store of `start_script`, `main.py` lines 171-172:
`processes[name]["thread"] = t`. -/
def startSetThread (t : Nat) (r : ProcRec) : ProcRec :=
  { r with thread := some t }

/-- The registration lock region of `ws_logs`, `main.py` line 216:
`processes.setdefault(name, {}).setdefault("subscribers", set()).add(q)`. -/
def wsSubscribeUpdate (q : SubQueue) (r : ProcRec) : ProcRec :=
  { r with subscribers := some (r.subscribers.getD [] ++ [q]) }

/-- The route `start_script` (`main.py` lines 152-174): 404 when the name is not in
the script registry; a no-op redirect when the record is already
`"running"`; otherwise reset the stop flag, output and policy, store the
thread handle and spawn the monitor thread.  The returned Bool records
whether a monitor thread was spawned. -/
def start_script (scripts : List (String × Script)) (procs : ProcMap)
    (name : String) : ProcMap × Response × Bool :=
  match alistLookup scripts name with
  | none => (procs, .html "Script not found" 404, false)
  | some sc =>
    let r0 := (alistLookup procs name).getD {}
    if r0.status = some "running" then
      (procs, .redirect ("/script/" ++ name) 303, false)
    else
      let r1 := startSetThread 0 (startUpdate (sc.policy.getD "on-failure") r0)
      (alistInsert procs name r1, .redirect ("/script/" ++ name) 303, true)

/-- The route `stop_script` (`main.py` lines 177-192): redirect home when the name has
no runtime record; otherwise set the sticky stop flag, terminate the live
child if any (an external effect on the OS process, grace period 5, not part
of the record state), and finally write status `"stopped"`. -/
def stop_script (procs : ProcMap) (name : String) : ProcMap × Response :=
  match alistLookup procs name with
  | none => (procs, .redirect "/" 303)
  | some r =>
    let r1 := stopStatusUpdate (stopFlagUpdate r)
    (alistInsert procs name r1, .redirect ("/script/" ++ name) 303)

/-- The subscription step of `ws_logs` (`main.py` lines 214-218): under one
lock region, lazily create the record, register the fresh queue in the
subscriber set, and read the last 2000 characters of the output buffer as
the initial tail to replay. -/
def ws_subscribe (procs : ProcMap) (name : String) (q : SubQueue) :
    ProcMap × List Char :=
  let r0 := (alistLookup procs name).getD {}
  let r1 := wsSubscribeUpdate q r0
  (alistInsert procs name r1, takeLast 2000 (r1.output.getD []))

/-- The status read used by the pages and the status socket
(`main.py` lines 125, 140, 244): `processes.get(name, {}).get("status",
"stopped")`. -/
def snapshotStatus (procs : ProcMap) (name : String) : String :=
  (((alistLookup procs name).getD {}).status).getD "stopped"

/-- One attached observer in the fine-grained fan-out model: the tail text
it was sent on attach (`ws_logs` sends `output[-2000:]` once) and its
bounded line queue. -/
structure Sink where
  initTail : List Char := []
  queue : SubQueue := {}
deriving DecidableEq, Repr

/-- The atomic events relevant to fan-out timing, one per lock region of the
source: `append line` is the buffer update at `main.py` lines 82-83, `bcast
line` is the subscriber-snapshot-and-enqueue of `_broadcast_line` called at
line 84 AFTER the buffer lock is released, and `attach` is the single lock
region of `ws_logs` (lines 215-218) that registers a sink and reads the
tail.  A producer iteration is `append l` followed by `bcast l`, but another
thread's `attach` may interleave between the two. -/
inductive FanEvent where
  | append (line : Line)
  | bcast (line : Line)
  | attach
deriving DecidableEq, Repr

/-- Fan-out state for one supervised name: the bounded output buffer and the
attached sinks. -/
structure FanState where
  output : List Char := []
  sinks : List Sink := []
deriving DecidableEq, Repr

/-- Small-step semantics of the fan-out events. -/
def fanStep (s : FanState) : FanEvent → FanState
  | .append line => { s with output := appendOutput 20000 s.output line }
  | .bcast line =>
    { s with sinks := s.sinks.map (fun k => { k with queue := qput_nowait k.queue line }) }
  | .attach =>
    { s with sinks := s.sinks ++ [{ initTail := takeLast 2000 s.output, queue := { maxsize := 1000 } }] }

/-- Run a trace of fan-out events from the empty state. -/
def fanRun (evs : List FanEvent) : FanState :=
  evs.foldl fanStep {}

/-- The event sequence a producer generates for a list of lines when no
other thread interleaves: each line is appended and then broadcast. -/
def produceEvents : List Line → List FanEvent
  | [] => []
  | l :: ls => FanEvent.append l :: FanEvent.bcast l :: produceEvents ls

/-- A subscriber attaching at a clean boundary: `pre` lines are produced,
the observer attaches, then `post` lines are produced. -/
def attachScenario (pre post : List Line) : FanState :=
  fanRun (produceEvents pre ++ FanEvent.attach :: produceEvents post)

/-!
## Helper lemmas
-/

theorem takeLast_length_le (k : Nat) (l : List α) :
    (takeLast k l).length ≤ k := by
  simp only [takeLast, List.length_reverse, List.length_take]
  omega

theorem takeLast_of_length_le {k : Nat} {l : List α} (h : l.length ≤ k) :
    takeLast k l = l := by
  have h2 : l.reverse.length ≤ k := by simpa using h
  simp [takeLast, List.take_of_length_le h2]

theorem takeLast_takeLast {j k : Nat} (hjk : j ≤ k) (l : List α) :
    takeLast j (takeLast k l) = takeLast j l := by
  simp [takeLast, List.take_take, Nat.min_eq_left hjk]

/-- Truncating again after appending an already truncated list on the left
discards the same elements. -/
theorem take_append_take (k : Nat) (x y : List α) :
    (x ++ y.take k).take k = (x ++ y).take k := by
  rw [List.take_append_eq_append_take, List.take_append_eq_append_take, List.take_take,
    Nat.min_eq_left (Nat.sub_le k x.length)]

/-- Appending and re-truncating an already truncated buffer gives the same
result as truncating the full concatenation: the algebraic heart of the
bounded output tail. -/
theorem takeLast_append_takeLast (k : Nat) (s t : List α) :
    takeLast k (takeLast k s ++ t) = takeLast k (s ++ t) := by
  unfold takeLast
  rw [List.reverse_append, List.reverse_reverse, List.reverse_append, take_append_take]

theorem appendOutput_length_le (cap : Nat) (out line : List Char) :
    (appendOutput cap out line).length ≤ cap :=
  takeLast_length_le cap (out ++ line)

/-- Folding `appendOutput` over a sequence of lines keeps exactly the last
`cap` characters of the total produced output. -/
theorem foldl_appendOutput (cap : Nat) (lines : List Line) :
    ∀ out : List Char, out.length ≤ cap →
      lines.foldl (appendOutput cap) out = takeLast cap (out ++ lines.flatten) := by
  induction lines with
  | nil =>
    intro out h
    simp [takeLast_of_length_le h]
  | cons l ls ih =>
    intro out h
    have h1 : (appendOutput cap out l).length ≤ cap := appendOutput_length_le cap out l
    calc (l :: ls).foldl (appendOutput cap) out
        = ls.foldl (appendOutput cap) (appendOutput cap out l) := rfl
      _ = takeLast cap (appendOutput cap out l ++ ls.flatten) := ih _ h1
      _ = takeLast cap ((out ++ l) ++ ls.flatten) :=
          takeLast_append_takeLast cap (out ++ l) ls.flatten
      _ = takeLast cap (out ++ (l :: ls).flatten) := by
          simp [List.flatten_cons, List.append_assoc]

/-- The streaming phase touches only the `output` and `subscribers` fields
of the record. -/
theorem streamFold_frame (lines : List Line) : ∀ r : ProcRec,
    (streamFold r lines).status = r.status ∧
    (streamFold r lines).should_stop = r.should_stop ∧
    (streamFold r lines).returncode = r.returncode ∧
    (streamFold r lines).start_time = r.start_time ∧
    (streamFold r lines).process = r.process ∧
    (streamFold r lines).policy = r.policy ∧
    (streamFold r lines).thread = r.thread := by
  induction lines with
  | nil => intro r; exact ⟨rfl, rfl, rfl, rfl, rfl, rfl, rfl⟩
  | cons l ls ih =>
    intro r
    simpa [streamFold, streamLine] using ih (streamLine r l)

/-- The streaming phase leaves the output buffer defined. -/
theorem streamFold_output_some (lines : List Line) :
    ∀ (r : ProcRec) (out : List Char), r.output = some out →
      (streamFold r lines).output = some (lines.foldl (appendOutput 20000) out) := by
  induction lines with
  | nil => intro r out h; exact h
  | cons l ls ih =>
    intro r out h
    have h2 : (streamLine r l).output = some (appendOutput 20000 out l) := by
      simp [streamLine, h]
    simpa [streamFold] using ih (streamLine r l) (appendOutput 20000 out l) h2

/-- Setting the sticky flag on a record where it is already set is the
identity. -/
theorem stopFlagUpdate_of_set {r : ProcRec} (h : r.should_stop = some true) :
    stopFlagUpdate r = r := by
  obtain ⟨p, t, s, st, o, rc, pol, ss, su⟩ := r
  simp only [stopFlagUpdate] at *
  simp_all

/-- The driver stops after an iteration that breaks. -/
theorem monitorLoop_break {policy : String} {r r2 : ProcRec} {e : CycleEnv}
    {n : Nat} (h : monitorIter policy r e = (r2, CycleOutcome.Break, n))
    (rest : List CycleEnv) :
    monitorLoop policy r (e :: rest) = (r2, n, some LoopExit.normal) := by
  simp [monitorLoop, h]

/-- The driver dies after an iteration that crashes. -/
theorem monitorLoop_crash {policy : String} {r r2 : ProcRec} {e : CycleEnv}
    {n : Nat} (h : monitorIter policy r e = (r2, CycleOutcome.Crash, n))
    (rest : List CycleEnv) :
    monitorLoop policy r (e :: rest) = (r2, n, some LoopExit.crashed) := by
  simp [monitorLoop, h]

/-- Effect of an uninterrupted production phase on the fan-out state: the
output buffer absorbs each line and every sink's queue receives each
enqueue attempt. -/
theorem fanRun_produce (ls : List Line) : ∀ s : FanState,
    (produceEvents ls).foldl fanStep s =
      { output := ls.foldl (appendOutput 20000) s.output,
        sinks := ls.foldl
          (fun ks l => ks.map (fun k => { k with queue := qput_nowait k.queue l }))
          s.sinks } := by
  induction ls with
  | nil => intro s; cases s; rfl
  | cons l ls ih =>
    intro s
    show (FanEvent.append l :: FanEvent.bcast l :: produceEvents ls).foldl fanStep s = _
    rw [List.foldl_cons, List.foldl_cons]
    have h1 : fanStep (fanStep s (FanEvent.append l)) (FanEvent.bcast l) =
        { output := appendOutput 20000 s.output l,
          sinks := s.sinks.map (fun k => { k with queue := qput_nowait k.queue l }) } := rfl
    rw [h1, ih]
    rfl

/-- Broadcasting to an empty sink set leaves it empty. -/
theorem fan_bcast_fold_nil (ls : List Line) :
    ls.foldl
      (fun ks l => ks.map (fun k => { k with queue := qput_nowait k.queue l }))
      ([] : List Sink) = [] := by
  induction ls with
  | nil => rfl
  | cons l ls ih => simpa using ih

/-- Broadcasting to a single sink folds `qput_nowait` over its queue. -/
theorem fan_bcast_fold_singleton (ls : List Line) : ∀ k : Sink,
    ls.foldl
      (fun ks l => ks.map (fun k2 => { k2 with queue := qput_nowait k2.queue l }))
      [k] = [{ k with queue := ls.foldl qput_nowait k.queue }] := by
  induction ls with
  | nil => intro k; rfl
  | cons l ls ih =>
    intro k
    simpa using ih { k with queue := qput_nowait k.queue l }

/-- The output buffer after the streaming phase is the `appendOutput` fold
over the produced lines (reading the buffer with the source's default
`""`). -/
theorem streamFold_output (lines : List Line) : ∀ r : ProcRec,
    (streamFold r lines).output.getD [] =
      lines.foldl (appendOutput 20000) (r.output.getD []) := by
  induction lines with
  | nil => intro r; rfl
  | cons l ls ih =>
    intro r
    simpa [streamFold, streamLine] using ih (streamLine r l)

/-- As long as a queue has room for all enqueued lines, none is dropped and
they arrive in order. -/
theorem foldl_qput_no_overflow (ls : List Line) : ∀ q : SubQueue,
    q.items.length + ls.length ≤ q.maxsize →
      ls.foldl qput_nowait q = { q with items := q.items ++ ls } := by
  induction ls with
  | nil =>
    intro q _
    cases q; simp
  | cons l ls ih =>
    intro q h
    have hlt : q.items.length < q.maxsize := by
      simp only [List.length_cons] at h
      omega
    have hnotfull : qFull q = false := by
      simp [qFull, Nat.not_le_of_lt hlt]
    have hput : qput_nowait q l = { q with items := q.items ++ [l] } := by
      simp [qput_nowait, hnotfull]
    have h2 : ({ q with items := q.items ++ [l] } : SubQueue).items.length + ls.length
        ≤ ({ q with items := q.items ++ [l] } : SubQueue).maxsize := by
      simp only [List.length_append, List.length_singleton] at *
      simp only [List.length_cons] at h
      omega
    calc (l :: ls).foldl qput_nowait q
        = ls.foldl qput_nowait (qput_nowait q l) := rfl
      _ = ls.foldl qput_nowait { q with items := q.items ++ [l] } := by rw [hput]
      _ = { q with items := (q.items ++ [l]) ++ ls } := ih _ h2
      _ = { q with items := q.items ++ l :: ls } := by simp

/-- The record arriving at the second checkpoint of a successful cycle
still carries the sticky flag the cycle started with. -/
theorem cycle_should_stop (r : ProcRec) (e : CycleEnv) (lines : List Line)
    (code : Int) :
    (setRetcode code (streamFold (launchUpdate e.pid e.now r) lines)).should_stop
      = r.should_stop := by
  have h := (streamFold_frame lines (launchUpdate e.pid e.now r)).2.1
  simp only [setRetcode]
  rw [h]
  rfl

/-- Reduction of one cycle when the launch succeeds and no stop request
interferes: both checkpoints fall through and the exit-code/policy branch
decides the outcome. -/
theorem monitorIter_ok (policy : String) (r : ProcRec) (e : CycleEnv)
    (lines : List Line) (code : Int)
    (hb : e.stopBefore = false) (hss : r.should_stop.getD false = false)
    (hd : e.stopDuring = false) (hl : e.launch = LaunchResult.ok lines code) :
    monitorIter policy r e =
      (if code ≠ 0 then
        if policy = "on-failure" ∨ policy = "always" then
          ({ setRetcode code (streamFold (launchUpdate e.pid e.now r) lines) with
             status := some "error" }, CycleOutcome.Continue 2, 1)
        else
          ({ setRetcode code (streamFold (launchUpdate e.pid e.now r) lines) with
             status := some "error" }, CycleOutcome.Break, 1)
      else if policy = "always" then
        ({ setRetcode code (streamFold (launchUpdate e.pid e.now r) lines) with
           status := some "stopped" }, CycleOutcome.Continue 2, 1)
      else
        ({ setRetcode code (streamFold (launchUpdate e.pid e.now r) lines) with
           status := some "stopped" }, CycleOutcome.Break, 1)) := by
  have hss2 : (setRetcode code (streamFold (launchUpdate e.pid e.now r)
      lines)).should_stop.getD false = false := by
    rw [cycle_should_stop]
    exact hss
  unfold monitorIter
  rw [hb, hl, hd]
  simp only [Bool.false_eq_true, if_false, hss, hss2]
  split_ifs <;> simp_all

/-- If a cycle breaks, the driver run consisting of that cycle and anything
scheduled after it terminates normally right there. -/
theorem monitorLoop_break_snd (policy : String) (r : ProcRec) (e : CycleEnv)
    (rest : List CycleEnv)
    (hbrk : (monitorIter policy r e).2.1 = CycleOutcome.Break) :
    monitorLoop policy r (e :: rest) =
      ((monitorIter policy r e).1, (monitorIter policy r e).2.2,
        some LoopExit.normal) := by
  rcases hmi : monitorIter policy r e with ⟨r2, oc, n⟩
  rw [hmi] at hbrk
  simp only at hbrk
  subst hbrk
  exact monitorLoop_break hmi rest

/-- Looking up the key just stored finds the stored value. -/
theorem alistLookup_insert (m : List (String × α)) (k : String) (v : α) :
    alistLookup (alistInsert m k v) k = some v := by
  induction m with
  | nil => simp [alistInsert, alistLookup]
  | cons p rest ih =>
    obtain ⟨k2, v2⟩ := p
    by_cases h : k2 = k <;> simp [alistInsert, alistLookup, h, ih]

/-!
## The claims
-/

/-- C6: after any sequence of output-line appends starting from a buffer
within its cap, the stored output tail never exceeds the configured cap of
20000 characters and always equals the most recent (last) characters of the
total produced output, truncating from the oldest end. -/
theorem C6_output_tail_bounded (r : ProcRec) (lines : List Line)
    (h : (r.output.getD []).length ≤ 20000) :
    ((streamFold r lines).output.getD []).length ≤ 20000 ∧
    (streamFold r lines).output.getD [] =
      takeLast 20000 (r.output.getD [] ++ lines.flatten) := by
  have h2 := streamFold_output lines r
  rw [foldl_appendOutput 20000 lines _ h] at h2
  constructor
  · rw [h2]
    exact takeLast_length_le 20000 _
  · exact h2

/-- Witness for C6 at a concrete record and line list. -/
theorem C6_output_tail_bounded_witness :
    ((streamFold {} [['a'], ['b'], ['c']]).output.getD []).length ≤ 20000 ∧
    (streamFold {} [['a'], ['b'], ['c']]).output.getD [] =
      takeLast 20000 (({} : ProcRec).output.getD [] ++ [['a'], ['b'], ['c']].flatten) :=
  C6_output_tail_bounded {} [['a'], ['b'], ['c']] (by decide)

/-- C7: `_broadcast_line` delivers the line to exactly the snapshot of
subscriber sinks taken under the lock: the sink list keeps its size, each
sink is updated independently by one non-blocking enqueue, a full sink
silently drops the line and is left unchanged, and a non-full sink receives
the line at the back of its queue — so one slow (full) subscriber never
affects the others or the producer. -/
theorem C7_broadcast_snapshot (subs : List SubQueue) (line : Line) :
    (broadcast_line subs line).length = subs.length ∧
    (∀ i : Nat, (broadcast_line subs line)[i]? =
      (subs[i]?).map (fun q => qput_nowait q line)) ∧
    (∀ (i : Nat) (q : SubQueue), subs[i]? = some q → qFull q = true →
      (broadcast_line subs line)[i]? = some q) ∧
    (∀ (i : Nat) (q : SubQueue), subs[i]? = some q → qFull q = false →
      (broadcast_line subs line)[i]? =
        some { q with items := q.items ++ [line] }) := by
  refine ⟨by simp [broadcast_line], ?_, ?_, ?_⟩
  · intro i
    simp [broadcast_line]
  · intro i q hq hfull
    simp [broadcast_line, hq, qput_nowait, hfull]
  · intro i q hq hfull
    simp [broadcast_line, hq, qput_nowait, hfull]

/-- Witness for C7: two sinks, the second full with capacity 1; the full one
drops the line, the non-full one receives it. -/
theorem C7_broadcast_snapshot_witness :
    (broadcast_line [{ maxsize := 2, items := [] },
        { maxsize := 1, items := [['x']] }] ['y'])[1]? =
      some { maxsize := 1, items := [['x']] } ∧
    (broadcast_line [{ maxsize := 2, items := [] },
        { maxsize := 1, items := [['x']] }] ['y'])[0]? =
      some { maxsize := 2, items := ([] : List Line) ++ [['y']] } :=
  ⟨(C7_broadcast_snapshot
      [{ maxsize := 2, items := [] }, { maxsize := 1, items := [['x']] }]
      ['y']).2.2.1 1 { maxsize := 1, items := [['x']] } (by decide) (by decide),
   (C7_broadcast_snapshot
      [{ maxsize := 2, items := [] }, { maxsize := 1, items := [['x']] }]
      ['y']).2.2.2 0 { maxsize := 2, items := [] } (by decide) (by decide)⟩

/-- C1 counterexample: with restart policy `on-failure` and a freshly
started record, a launch failure makes the iteration end in `Crash` — the
exception raised by `Popen` is not caught, the record is left untouched
(status is NOT set to `"error"`), no restart-policy branch runs, and the
driver reports the loop thread as crashed. -/
theorem C1_launch_failure_counterexample :
    (monitorIter "on-failure" (startUpdate "on-failure" {})
      { launch := LaunchResult.fail }).2.1 = CycleOutcome.Crash ∧
    (monitorIter "on-failure" (startUpdate "on-failure" {})
      { launch := LaunchResult.fail }).1.status ≠ some "error" ∧
    monitorLoop "on-failure" (startUpdate "on-failure" {})
      [{ launch := LaunchResult.fail }] =
      (startUpdate "on-failure" {}, 0, some LoopExit.crashed) := by
  refine ⟨rfl, ?_, rfl⟩
  intro h
  simp [startUpdate, monitorIter] at h

/-- C1 (amended): `monitor_script` has no handler around `subprocess.Popen`,
so a launch failure in any iteration whose first checkpoint falls through
escapes the loop body: the record is returned unchanged (no `Error` status,
no restart-policy branch), no child is created, and the loop thread dies
instead of continuing. -/
theorem C1_launch_failure_uncaught (policy : String) (r : ProcRec)
    (e : CycleEnv) (hb : e.stopBefore = false)
    (hss : r.should_stop.getD false = false)
    (hl : e.launch = LaunchResult.fail) :
    monitorIter policy r e = (r, CycleOutcome.Crash, 0) ∧
    ∀ rest : List CycleEnv,
      monitorLoop policy r (e :: rest) = (r, 0, some LoopExit.crashed) := by
  have h : monitorIter policy r e = (r, CycleOutcome.Crash, 0) := by
    unfold monitorIter
    rw [hb, hl]
    simp [hss]
  exact ⟨h, fun rest => monitorLoop_crash h rest⟩

/-- Witness for C1 at a concrete record and environment. -/
theorem C1_launch_failure_uncaught_witness :
    monitorIter "never" {} { launch := LaunchResult.fail } =
      ({}, CycleOutcome.Crash, 0) :=
  (C1_launch_failure_uncaught "never" {} { launch := LaunchResult.fail }
    rfl rfl rfl).1

/-- C2: in an iteration where the child exits and no stop request
interferes: a nonzero exit sets status `"error"` and relaunches after the
fixed 2-unit back-off exactly when the policy is `on-failure` or `always`
(under `never` the loop breaks with status left `"error"`); a zero exit sets
status `"stopped"` and relaunches after the same back-off exactly when the
policy is `always`, otherwise the loop breaks; and whenever the iteration
breaks, the driver terminates right there with no further process
creation. -/
theorem C2_exit_policy_branch (policy : String) (r : ProcRec) (e : CycleEnv)
    (lines : List Line) (code : Int)
    (hpol : policy = "never" ∨ policy = "on-failure" ∨ policy = "always")
    (hb : e.stopBefore = false) (hss : r.should_stop.getD false = false)
    (hd : e.stopDuring = false) (hl : e.launch = LaunchResult.ok lines code) :
    (code ≠ 0 →
      (monitorIter policy r e).1.status = some "error" ∧
      ((monitorIter policy r e).2.1 = CycleOutcome.Continue 2 ↔
        (policy = "on-failure" ∨ policy = "always")) ∧
      (policy = "never" → (monitorIter policy r e).2.1 = CycleOutcome.Break)) ∧
    (code = 0 →
      (monitorIter policy r e).1.status = some "stopped" ∧
      ((monitorIter policy r e).2.1 = CycleOutcome.Continue 2 ↔
        policy = "always") ∧
      (policy ≠ "always" → (monitorIter policy r e).2.1 = CycleOutcome.Break)) ∧
    (∀ rest : List CycleEnv, (monitorIter policy r e).2.1 = CycleOutcome.Break →
      monitorLoop policy r (e :: rest) =
        ((monitorIter policy r e).1, (monitorIter policy r e).2.2,
          some LoopExit.normal)) := by
  rw [monitorIter_ok policy r e lines code hb hss hd hl]
  refine ⟨?_, ?_, ?_⟩
  · intro hcode
    rcases hpol with h | h | h <;> subst h <;> simp [hcode]
  · intro hcode
    rcases hpol with h | h | h <;> subst h <;> simp [hcode]
  · intro rest hbrk
    have h2 : (monitorIter policy r e).2.1 = CycleOutcome.Break := by
      rw [monitorIter_ok policy r e lines code hb hss hd hl]
      exact hbrk
    have h3 := monitorLoop_break_snd policy r e rest h2
    rw [monitorIter_ok policy r e lines code hb hss hd hl] at h3
    exact h3

/-- Witness for C2: policy `never`, exit code 1 — status becomes `"error"`
and the loop breaks. -/
theorem C2_exit_policy_branch_witness :
    (monitorIter "never" {} { launch := LaunchResult.ok [] 1 }).1.status =
      some "error" ∧
    (monitorIter "never" {} { launch := LaunchResult.ok [] 1 }).2.1 =
      CycleOutcome.Break :=
  ⟨((C2_exit_policy_branch "never" {} { launch := LaunchResult.ok [] 1 }
      [] 1 (Or.inl rfl) rfl rfl rfl rfl).1 (by decide)).1,
   ((C2_exit_policy_branch "never" {} { launch := LaunchResult.ok [] 1 }
      [] 1 (Or.inl rfl) rfl rfl rfl rfl).1 (by decide)).2.2 rfl⟩

/-- C3: the sticky stop flag.  The stop request sets it; the stop status
write, the subscription, and the thread store leave it alone; only the start
operation's reset clears it; the loop itself never clears it in a cycle; as
soon as the loop enters an iteration with the flag set (so the first
checkpoint, before launch, observes it), it writes status `"stopped"` and
terminates normally without creating any further child process; and when the
flag is instead set while the child runs (so the second checkpoint, after
exit, observes it — `main.py` lines 91-97), the iteration again writes
status `"stopped"` and the loop terminates after that single launch, with no
relaunch under any policy, `"always"` included. -/
theorem C3_should_stop_sticky :
    (∀ r : ProcRec, (stopFlagUpdate r).should_stop = some true) ∧
    (∀ r : ProcRec, (stopStatusUpdate r).should_stop = r.should_stop) ∧
    (∀ (r : ProcRec) (q : SubQueue),
      (wsSubscribeUpdate q r).should_stop = r.should_stop) ∧
    (∀ (t : Nat) (r : ProcRec), (startSetThread t r).should_stop = r.should_stop) ∧
    (∀ (pol : String) (r : ProcRec), (startUpdate pol r).should_stop = some false) ∧
    (∀ (policy : String) (r : ProcRec) (e : CycleEnv), r.should_stop = some true →
      (monitorIter policy r e).1.should_stop = some true) ∧
    (∀ (policy : String) (r : ProcRec) (e : CycleEnv) (rest : List CycleEnv),
      r.should_stop = some true →
      monitorLoop policy r (e :: rest) =
        ({ r with status := some "stopped" }, 0, some LoopExit.normal)) ∧
    (∀ (policy : String) (r : ProcRec) (e : CycleEnv) (lines : List Line)
      (code : Int),
      e.stopBefore = false → r.should_stop.getD false = false →
      e.stopDuring = true → e.launch = LaunchResult.ok lines code →
      monitorIter policy r e =
        ({ stopFlagUpdate (setRetcode code
            (streamFold (launchUpdate e.pid e.now r) lines)) with
           status := some "stopped" }, CycleOutcome.Break, 1) ∧
      ∀ rest : List CycleEnv,
        monitorLoop policy r (e :: rest) =
          ({ stopFlagUpdate (setRetcode code
              (streamFold (launchUpdate e.pid e.now r) lines)) with
             status := some "stopped" }, 1, some LoopExit.normal)) := by
  refine ⟨fun r => rfl, fun r => rfl, fun r q => rfl, fun t r => rfl,
    fun pol r => rfl, ?_, ?_, ?_⟩
  · intro policy r e h
    unfold monitorIter
    by_cases hb : e.stopBefore <;> simp [hb, stopFlagUpdate, h]
  · intro policy r e rest h
    have hif : (if e.stopBefore then stopFlagUpdate r else r) = r := by
      by_cases hb : e.stopBefore <;> simp [hb, stopFlagUpdate_of_set h]
    have hmi : monitorIter policy r e =
        ({ r with status := some "stopped" }, CycleOutcome.Break, 0) := by
      unfold monitorIter
      rw [hif]
      simp [h]
    exact monitorLoop_break hmi rest
  · intro policy r e lines code hb hss hd hl
    have hmi : monitorIter policy r e =
        ({ stopFlagUpdate (setRetcode code
            (streamFold (launchUpdate e.pid e.now r) lines)) with
           status := some "stopped" }, CycleOutcome.Break, 1) := by
      unfold monitorIter
      rw [hb, hl, hd]
      simp [hss, stopFlagUpdate]
    exact ⟨hmi, fun rest => monitorLoop_break hmi rest⟩

/-- Witness for C3: the flag set at iteration entry stops the loop with zero
launches (first checkpoint), and the flag set while the child runs stops the
loop after that single launch even under policy `"always"` (second
checkpoint). -/
theorem C3_should_stop_sticky_witness :
    monitorLoop "always" { should_stop := some true } [{}] =
      ({ status := some "stopped", should_stop := some true }, 0,
        some LoopExit.normal) ∧
    monitorLoop "always" {} [{ stopDuring := true }] =
      ({ process := some 0, status := some "stopped", start_time := some 0,
         output := some [], returncode := some 0, should_stop := some true },
        1, some LoopExit.normal) :=
  ⟨C3_should_stop_sticky.2.2.2.2.2.2.1 "always" { should_stop := some true }
      {} [] rfl,
   (C3_should_stop_sticky.2.2.2.2.2.2.2 "always" {} { stopDuring := true }
      [] 0 rfl rfl rfl rfl).2 []⟩

/-- C4 counterexample: the stop operation also writes `status` (`main.py`
line 191), so the supervisor loop is not the sole writer of that field: on a
record whose status is `"running"`, the stop status write changes it, and
`stop_script` leaves the stored record with status `"stopped"`. -/
theorem C4_single_writer_counterexample :
    (stopStatusUpdate { status := some "running" }).status ≠
      ({ status := some "running" } : ProcRec).status ∧
    snapshotStatus
      (stop_script [("job", { status := some "running" })] "job").1 "job" =
      "stopped" := by
  constructor
  · intro h
    simp [stopStatusUpdate] at h
  · rfl

/-- C4 (amended): the loop is the sole writer of `start_time`, `returncode`
and the process handle — the start mutation, the thread store, the stop flag
write and the subscription all preserve those three fields, and all of them
except the stop status write also preserve `status`; the stop status write
is the one non-loop writer of `status`, and it always writes `"stopped"`. -/
theorem C4_single_writer_amended (r : ProcRec) (pol : String) (t : Nat)
    (q : SubQueue) :
    ((startUpdate pol r).status = r.status ∧
     (startUpdate pol r).start_time = r.start_time ∧
     (startUpdate pol r).returncode = r.returncode ∧
     (startUpdate pol r).process = r.process) ∧
    ((startSetThread t r).status = r.status ∧
     (startSetThread t r).start_time = r.start_time ∧
     (startSetThread t r).returncode = r.returncode ∧
     (startSetThread t r).process = r.process) ∧
    ((stopFlagUpdate r).status = r.status ∧
     (stopFlagUpdate r).start_time = r.start_time ∧
     (stopFlagUpdate r).returncode = r.returncode ∧
     (stopFlagUpdate r).process = r.process) ∧
    ((stopStatusUpdate r).start_time = r.start_time ∧
     (stopStatusUpdate r).returncode = r.returncode ∧
     (stopStatusUpdate r).process = r.process ∧
     (stopStatusUpdate r).status = some "stopped") ∧
    ((wsSubscribeUpdate q r).status = r.status ∧
     (wsSubscribeUpdate q r).start_time = r.start_time ∧
     (wsSubscribeUpdate q r).returncode = r.returncode ∧
     (wsSubscribeUpdate q r).process = r.process) :=
  ⟨⟨rfl, rfl, rfl, rfl⟩, ⟨rfl, rfl, rfl, rfl⟩, ⟨rfl, rfl, rfl, rfl⟩,
   ⟨rfl, rfl, rfl, rfl⟩, ⟨rfl, rfl, rfl, rfl⟩⟩

/-- C5 counterexample: policy `always`, first child exits with code 1, the
loop relaunches; the launch lock region of the second cycle sets status
`"running"` but does NOT clear the stored exit code, so the record is
`Running` with `exitCode = 1` instead of `None`. -/
theorem C5_launch_counterexample :
    (launchUpdate 8 5 (monitorIter "always" (startUpdate "always" {})
      { pid := 7, now := 3, launch := LaunchResult.ok [['x']] 1 }).1).status =
      some "running" ∧
    (launchUpdate 8 5 (monitorIter "always" (startUpdate "always" {})
      { pid := 7, now := 3, launch := LaunchResult.ok [['x']] 1 }).1).returncode =
      some 1 ∧
    (monitorIter "always" (startUpdate "always" {})
      { pid := 7, now := 3, launch := LaunchResult.ok [['x']] 1 }).2.1 =
      CycleOutcome.Continue 2 := by
  refine ⟨rfl, ?_, rfl⟩
  rfl

/-- C5 (amended): at every child launch the loop records the start time,
stores the handle, sets status `"running"` and default-initializes the
output buffer, but it leaves the stored exit code untouched; `exitCode` is
`None` while running only until the first child has exited. -/
theorem C5_launch_sets_running (pid now : Nat) (r : ProcRec) :
    (launchUpdate pid now r).status = some "running" ∧
    (launchUpdate pid now r).start_time = some now ∧
    (launchUpdate pid now r).process = some pid ∧
    (launchUpdate pid now r).returncode = r.returncode ∧
    (launchUpdate pid now r).should_stop = r.should_stop :=
  ⟨rfl, rfl, rfl, rfl, rfl⟩

/-- C8 counterexample: an interleaving the source permits (the tail append
at `main.py` lines 82-83 and the broadcast at line 84 are separate lock
regions) in which a subscriber attaches between the append of a line and
its broadcast.  The total produced output is the single character A, yet the
attached sink both holds that A in its initial tail and has the line A
enqueued — a duplicate delivery, refuting "thereafter exactly the lines
produced after attachment, with no duplicates". -/
theorem C8_subscribe_counterexample :
    (fanRun [FanEvent.append ['A'], FanEvent.attach, FanEvent.bcast ['A']]).sinks =
      [{ initTail := ['A'], queue := { maxsize := 1000, items := [['A']] } }] ∧
    (fanRun [FanEvent.append ['A'], FanEvent.attach,
      FanEvent.bcast ['A']]).output = ['A'] :=
  ⟨rfl, rfl⟩

/-- C8 (amended): when the observer attaches at a clean boundary (not
between a line's tail append and its broadcast) and its bounded queue does
not overflow, subscription atomically registers the sink and returns the
last 2000 characters of the bounded tail, and the sink thereafter receives
exactly the lines produced after attachment, in production order, with no
duplicates. -/
theorem C8_subscribe_replay (pre post : List Line)
    (hpost : post.length ≤ 1000) :
    (attachScenario pre post).sinks =
      [{ initTail := takeLast 2000 pre.flatten,
         queue := { maxsize := 1000, items := post } }] := by
  have h1 : (produceEvents pre).foldl fanStep {} =
      { output := takeLast 20000 pre.flatten, sinks := [] } := by
    rw [fanRun_produce pre {}]
    congr 1
    · have h := foldl_appendOutput 20000 pre [] (by simp)
      simpa using h
    · exact fan_bcast_fold_nil pre
  have h2 : fanStep
      { output := takeLast 20000 pre.flatten, sinks := ([] : List Sink) }
      FanEvent.attach =
      { output := takeLast 20000 pre.flatten,
        sinks := [{ initTail := takeLast 2000 pre.flatten,
                    queue := { maxsize := 1000 } }] } := by
    have ht : takeLast 2000 (takeLast 20000 pre.flatten) =
        takeLast 2000 pre.flatten :=
      takeLast_takeLast (by decide) pre.flatten
    simp [fanStep, ht]
  have h3 : attachScenario pre post =
      (produceEvents post).foldl fanStep
        { output := takeLast 20000 pre.flatten,
          sinks := [{ initTail := takeLast 2000 pre.flatten,
                      queue := { maxsize := 1000 } }] } := by
    unfold attachScenario fanRun
    rw [List.foldl_append, h1, List.foldl_cons, h2]
  calc (attachScenario pre post).sinks
      = post.foldl
          (fun ks l => ks.map (fun k => { k with queue := qput_nowait k.queue l }))
          [{ initTail := takeLast 2000 pre.flatten,
             queue := { maxsize := 1000 } }] := by
        rw [h3, fanRun_produce post]
    _ = [{ initTail := takeLast 2000 pre.flatten,
           queue := post.foldl qput_nowait { maxsize := 1000 } }] :=
        fan_bcast_fold_singleton post _
    _ = [{ initTail := takeLast 2000 pre.flatten,
           queue := { maxsize := 1000, items := post } }] := by
        rw [foldl_qput_no_overflow post { maxsize := 1000 } (by simpa using hpost)]
        simp

/-- Witness for C8 at a concrete scenario: one line before attachment, one
after. -/
theorem C8_subscribe_replay_witness :
    (attachScenario [['a']] [['b']]).sinks =
      [{ initTail := takeLast 2000 [['a']].flatten,
         queue := { maxsize := 1000, items := [['b']] } }] :=
  C8_subscribe_replay [['a']] [['b']] (by decide)

/-- C9 counterexample: `stop_script` on a name with no registry entry
returns a plain redirect to the index (HTTP 303), not a not-found
condition, and the subscription step of `ws_logs` on an unknown name does
not report not-found either — it lazily creates a registry entry and
registers the sink. -/
theorem C9_unknown_name_counterexample :
    (stop_script [] "ghost").2 = Response.redirect "/" 303 ∧
    Response.statusOf (stop_script [] "ghost").2 ≠ 404 ∧
    (ws_subscribe [] "ghost" { maxsize := 1000 }).1 =
      [("ghost", { subscribers := some [{ maxsize := 1000 }] })] := by
  refine ⟨rfl, ?_, rfl⟩
  decide

/-- C9 (amended): operations on a wholly unknown name are never fatal —
each returns normally — but only `start_script` surfaces a 404 not-found;
`stop_script` answers with a silent redirect home and leaves the state
unchanged, and the `ws_logs` subscription lazily creates the record and
proceeds with an empty replay tail. -/
theorem C9_unknown_name_not_fatal (scripts : List (String × Script))
    (procs : ProcMap) (name : String) (q : SubQueue)
    (hs : alistLookup scripts name = none)
    (hp : alistLookup procs name = none) :
    start_script scripts procs name =
      (procs, Response.html "Script not found" 404, false) ∧
    stop_script procs name = (procs, Response.redirect "/" 303) ∧
    ws_subscribe procs name q =
      (alistInsert procs name { subscribers := some [q] }, []) := by
  refine ⟨?_, ?_, ?_⟩
  · simp [start_script, hs]
  · simp [stop_script, hp]
  · simp [ws_subscribe, hp, wsSubscribeUpdate, takeLast]

/-- Witness for C9 on a concrete unknown name. -/
theorem C9_unknown_name_witness :
    stop_script [] "ghost2" = ([], Response.redirect "/" 303) :=
  (C9_unknown_name_not_fatal [] [] "ghost2" {} rfl rfl).2.1

/-- C10: when `start_script` proceeds (name configured, record not
`"running"`), the stored record is exactly the start mutation followed by
the thread store — operations that write only `should_stop`, `output`,
`policy`, `subscribers` and `thread` — so `status`, and with it the result
of a status query, is unchanged when `start_script` returns; the status
becomes `"running"` only later, through the spawned loop's launch lock
region. -/
theorem C10_start_never_writes_status (scripts : List (String × Script))
    (procs : ProcMap) (name : String) (sc : Script)
    (hs : alistLookup scripts name = some sc)
    (hr : ((alistLookup procs name).getD {}).status ≠ some "running") :
    alistLookup (start_script scripts procs name).1 name =
      some (startSetThread 0 (startUpdate (sc.policy.getD "on-failure")
        ((alistLookup procs name).getD {}))) ∧
    ((alistLookup (start_script scripts procs name).1 name).getD {}).status =
      ((alistLookup procs name).getD {}).status ∧
    snapshotStatus (start_script scripts procs name).1 name =
      snapshotStatus procs name ∧
    (start_script scripts procs name).2.2 = true ∧
    (∀ (pid now : Nat) (r2 : ProcRec),
      (launchUpdate pid now r2).status = some "running") := by
  have hstart : start_script scripts procs name =
      (alistInsert procs name (startSetThread 0
        (startUpdate (sc.policy.getD "on-failure")
          ((alistLookup procs name).getD {}))),
       Response.redirect ("/script/" ++ name) 303, true) := by
    simp [start_script, hs, hr]
  refine ⟨?_, ?_, ?_, ?_, fun pid now r2 => rfl⟩
  · rw [hstart]
    exact alistLookup_insert procs name _
  · rw [hstart]
    rw [alistLookup_insert procs name]
    rfl
  · unfold snapshotStatus
    rw [hstart]
    rw [alistLookup_insert procs name]
    rfl
  · rw [hstart]

/-- Witness for C10: starting a name whose record still says `"error"`
leaves the status query unchanged (it still answers `"error"`, not
`"running"`). -/
theorem C10_start_never_writes_status_witness :
    snapshotStatus (start_script [("job", { path := "j.py" })]
      [("job", { status := some "error" })] "job").1 "job" =
      snapshotStatus [("job", ({ status := some "error" } : ProcRec))] "job" ∧
    snapshotStatus [("job", ({ status := some "error" } : ProcRec))] "job" =
      "error" :=
  ⟨(C10_start_never_writes_status [("job", { path := "j.py" })]
      [("job", { status := some "error" })] "job" { path := "j.py" }
      rfl (by decide)).2.2.1, rfl⟩
